import Mathlib

/-
Verification of the CivicFuse contact-relationship-management backend.

The Python endpoint handlers in app/api/v1/{contacts,groups,social_profiles}.py
are shallowly embedded below as pure functions over an explicit relational
state (structure DB).  UUID identifiers are modelled as Nat, timestamps as
Nat, SQL text ordering as codepoint order on the character list of a string.
Each handler returns the externally visible HTTP outcome together with the
persisted state after the call; rollback-on-error is modelled by returning
the unchanged input state on every error path, exactly as db.rollback() and
get_db_cursor do in the source.
-/

namespace CivicFuse

/-! ### String helpers: ILIKE matching and ORDER BY text ordering -/

/-- Lower-casing of one ASCII character, modelling str.lower on the
alphabetic range used by the stored fields. -/
def charLower (c : Char) : Char :=
  if 65 ≤ c.toNat ∧ c.toNat ≤ 90 then Char.ofNat (c.toNat + 32) else c

/-- Does the character list s contain pat as a contiguous infix? -/
def hasInfix (s pat : List Char) : Bool :=
  match s with
  | [] => pat.isEmpty
  | _ :: t => pat.isPrefixOf s || hasInfix t pat

/-- Case-insensitive containment of pat (given already in lower case) in s,
modelling the Python tests of the form: pat in str(e).lower(). -/
def lowerContains (s pat : String) : Bool :=
  hasInfix (s.toList.map charLower) pat.toList

/-- SQL ILIKE with a pattern wrapped in percent signs: case-insensitive
substring match.  A NULL column value never matches. -/
def ilike (v : Option String) (pat : String) : Bool :=
  match v with
  | some s => hasInfix (s.toList.map charLower) (pat.toList.map charLower)
  | none => false

/-- Codepoint-wise comparison of character lists, the model of the text
ordering used by ORDER BY. -/
def charListLeb : List Char → List Char → Bool
  | [], _ => true
  | _ :: _, [] => false
  | a :: as, b :: bs => if a = b then charListLeb as bs else Nat.blt a.toNat b.toNat

/-- Text ordering on strings (ORDER BY collation model). -/
def strLeb (a b : String) : Bool :=
  charListLeb a.toList b.toList

/-! ### Rows and database state -/

/-- One row of cms_core.contacts. -/
structure Contact where
  contact_id : Nat
  full_name : String
  email : String
  phone : Option String := none
  organization : Option String := none
  job_title : Option String := none
  bio : Option String := none
  location : Option String := none
  website_url : Option String := none
  influence_score : Option Nat := none
  contact_status : String := "active"
  tags : Option String := none
  notes : Option String := none
  created_at : Nat := 0
  updated_at : Nat := 0
  version : Nat := 0
  deriving DecidableEq

/-- One row of cms_core.groups. -/
structure Group where
  group_id : Nat
  group_name : String
  description : Option String := none
  created_at : Nat := 0
  updated_at : Nat := 0
  version : Nat := 0
  deriving DecidableEq

/-- One row of cms_core.contact_group_memberships. -/
structure Membership where
  contact_id : Nat
  group_id : Nat
  membership_status : String := "active"
  joined_at : Nat := 0
  notes : Option String := none
  deriving DecidableEq

/-- One row of cms_core.social_profiles. -/
structure SocialProfile where
  profile_id : Nat
  contact_id : Nat
  platform : String
  username_or_handle : Option String := none
  profile_url : String
  notes : Option String := none
  added_at : Nat := 0
  updated_at : Nat := 0
  version : Nat := 0
  deriving DecidableEq

/-- The persisted state of the cms_core schema. -/
structure DB where
  contacts : List Contact
  groups : List Group
  memberships : List Membership
  profiles : List SocialProfile
  deriving DecidableEq

/-- Externally visible outcome of one endpoint call, as produced by the
FastAPI handlers (success payloads and the HTTPException branches). -/
inductive Outcome (α : Type) where
  | ok (value : α)
  | created (value : α)
  | noContent
  | badRequest (detail : String)
  | notFound (detail : String)
  | conflict (detail : String)
  | serverError (detail : String)
  deriving DecidableEq

/-- HTTP status code of an outcome. -/
def Outcome.statusCode : Outcome α → Nat
  | .ok _ => 200
  | .created _ => 201
  | .noContent => 204
  | .badRequest _ => 400
  | .notFound _ => 404
  | .conflict _ => 409
  | .serverError _ => 500

/-! ### Store-level constraint errors

The relational schema (scripts/create_schema.sql) is not part of src/, so the
store-side constraints are modelled from the spec: email is unique on
contacts, group_name is unique on groups, profile_url is unique per contact
on social_profiles, and memberships hold foreign keys to contacts and
groups. -/

/-- Modelled from the spec: the text of the error a PostgreSQL unique
constraint violation produces, which the handlers re-map by substring
matching (the schema and driver carrying this text are outside src/). -/
def pgUniqueViolationMessage : String :=
  "duplicate key value violates unique constraint"

/-- The except-branch of create_group / update_group in groups.py: an error
whose lowered text contains "unique" becomes 409 Conflict, anything else a
generic 500. -/
def group_exception_response (msg fallback gname : String) : Outcome α :=
  if lowerContains msg "unique" then
    .conflict ("Group with name " ++ gname ++ " already exists")
  else
    .serverError fallback

/-- The except-branch of create/update in social_profiles.py: an error whose
lowered text contains "duplicate key value" becomes 400, anything else a
generic 500. -/
def profile_exception_response (msg fallback : String) : Outcome α :=
  if lowerContains msg "duplicate key value" then
    .badRequest "Social profile URL already exists for this contact"
  else
    .serverError fallback

/-! ### Patch payloads and their dynamic SET lists -/

/-- ContactUpdate payload.  An outer none means the field was absent from
the request (pydantic exclude_unset drops it); for nullable columns the
inner Option is the value written, so some none is an explicit null. -/
structure ContactUpdate where
  full_name : Option String := none
  email : Option String := none
  phone : Option (Option String) := none
  organization : Option (Option String) := none
  job_title : Option (Option String) := none
  bio : Option (Option String) := none
  location : Option (Option String) := none
  website_url : Option (Option String) := none
  influence_score : Option (Option Nat) := none
  contact_status : Option String := none
  tags : Option (Option String) := none
  notes : Option (Option String) := none
  deriving DecidableEq

/-- Is the dynamically built update_fields list of update_contact
non-empty, i.e. did exclude_unset leave at least one field? -/
def ContactUpdate.hasFields (p : ContactUpdate) : Bool :=
  p.full_name.isSome || p.email.isSome || p.phone.isSome ||
  p.organization.isSome || p.job_title.isSome || p.bio.isSome ||
  p.location.isSome || p.website_url.isSome || p.influence_score.isSome ||
  p.contact_status.isSome || p.tags.isSome || p.notes.isSome

/-- Effect on the addressed row of the UPDATE statement update_contact
builds: each present field is assigned, then the two bookkeeping
assignments updated_at = NOW() and version = version + 1 are appended. -/
def ContactUpdate.apply (p : ContactUpdate) (now : Nat) (c : Contact) : Contact :=
  { c with
    full_name := p.full_name.getD c.full_name
    email := p.email.getD c.email
    phone := p.phone.getD c.phone
    organization := p.organization.getD c.organization
    job_title := p.job_title.getD c.job_title
    bio := p.bio.getD c.bio
    location := p.location.getD c.location
    website_url := p.website_url.getD c.website_url
    influence_score := p.influence_score.getD c.influence_score
    contact_status := p.contact_status.getD c.contact_status
    tags := p.tags.getD c.tags
    notes := p.notes.getD c.notes
    updated_at := now
    version := c.version + 1 }

/-- GroupUpdate payload; fields sent as explicit null are skipped by the
handler (is-not-None tests), so one Option layer suffices. -/
structure GroupUpdate where
  group_name : Option String := none
  description : Option String := none
  deriving DecidableEq

/-- Effect of the UPDATE statement update_group builds.  Its SET list holds
only the provided payload fields: no updated_at and no version assignment
is appended (unlike the contact and social-profile handlers). -/
def GroupUpdate.apply (p : GroupUpdate) (g : Group) : Group :=
  { g with
    group_name := p.group_name.getD g.group_name
    description := match p.description with
      | some d => some d
      | none => g.description }

/-- SocialProfileUpdate payload; explicit nulls are skipped by the handler
(is-not-None tests). -/
structure SocialProfileUpdate where
  platform : Option String := none
  username_or_handle : Option String := none
  profile_url : Option String := none
  notes : Option String := none
  deriving DecidableEq

/-- Is the update_fields list of update_social_profile empty? -/
def SocialProfileUpdate.isEmpty (p : SocialProfileUpdate) : Bool :=
  p.platform.isNone && p.username_or_handle.isNone &&
  p.profile_url.isNone && p.notes.isNone

/-- Effect of the UPDATE statement update_social_profile builds: provided
fields plus the appended updated_at = CURRENT_TIMESTAMP and
version = version + 1 assignments. -/
def SocialProfileUpdate.apply (p : SocialProfileUpdate) (now : Nat)
    (sp : SocialProfile) : SocialProfile :=
  { sp with
    platform := p.platform.getD sp.platform
    username_or_handle := match p.username_or_handle with
      | some u => some u
      | none => sp.username_or_handle
    profile_url := p.profile_url.getD sp.profile_url
    notes := match p.notes with
      | some n => some n
      | none => sp.notes
    updated_at := now
    version := sp.version + 1 }

/-! ### Contacts endpoints (app/api/v1/contacts.py) -/

/-- Creation payload for POST /contacts. -/
structure ContactCreate where
  full_name : String
  email : String
  phone : Option String := none
  organization : Option String := none
  job_title : Option String := none
  bio : Option String := none
  location : Option String := none
  website_url : Option String := none
  influence_score : Option Nat := none
  contact_status : String := "active"
  tags : Option String := none
  notes : Option String := none
  deriving DecidableEq

/-- The row the INSERT of create_contact produces; created_at, updated_at
and version come from the store defaults (spec: version starts at 0 or 1;
0 is used here). -/
def ContactCreate.toRow (data : ContactCreate) (newId now : Nat) : Contact :=
  { contact_id := newId
    full_name := data.full_name
    email := data.email
    phone := data.phone
    organization := data.organization
    job_title := data.job_title
    bio := data.bio
    location := data.location
    website_url := data.website_url
    influence_score := data.influence_score
    contact_status := data.contact_status
    tags := data.tags
    notes := data.notes
    created_at := now
    updated_at := now
    version := 0 }

/-- create_contact with the pre-check and the INSERT possibly observing
different store states (dbCheck at the duplicate-email SELECT, dbIns at the
INSERT), which models a concurrent writer between the two statements.  A
unique violation raised by the INSERT reaches the generic except branch of
the handler, which rolls back and returns 500. -/
def create_contact_race (dbCheck dbIns : DB) (newId now : Nat)
    (data : ContactCreate) : Outcome Contact × DB :=
  if dbCheck.contacts.any (fun c => c.email == data.email) then
    (.conflict ("Contact with email " ++ data.email ++ " already exists"), dbIns)
  else if dbIns.contacts.any (fun c => c.email == data.email) then
    (.serverError "Failed to create contact", dbIns)
  else
    let c := data.toRow newId now
    (.created c, { dbIns with contacts := dbIns.contacts ++ [c] })

/-- POST /contacts in the sequential case: both statements see the same
state. -/
def create_contact (db : DB) (newId now : Nat) (data : ContactCreate) :
    Outcome Contact × DB :=
  create_contact_race db db newId now data

/-- PUT /contacts/id: existence check, duplicate-email check when the patch
carries an email, then either the no-op read-back or the dynamic UPDATE
with bookkeeping fields appended. -/
def update_contact (db : DB) (now cid : Nat) (p : ContactUpdate) :
    Outcome Contact × DB :=
  match db.contacts.find? (fun c => c.contact_id == cid) with
  | none => (.notFound "Contact not found", db)
  | some _ =>
    if (match p.email with
        | some e => db.contacts.any (fun c => c.email == e && c.contact_id != cid)
        | none => false) then
      (.conflict ("Contact with email " ++ (p.email.getD "") ++ " already exists"), db)
    else if p.hasFields then
      let written := db.contacts.map
        (fun c => if c.contact_id == cid then p.apply now c else c)
      let db' := { db with contacts := written }
      match db'.contacts.find? (fun c => c.contact_id == cid) with
      | some c' => (.ok c', db')
      | none => (.serverError "Failed to update contact", db)
    else
      match db.contacts.find? (fun c => c.contact_id == cid) with
      | some c => (.ok c, db)
      | none => (.serverError "Failed to update contact", db)

/-- State after the first DELETE of delete_contact (membership rows of the
contact removed). -/
def deleteMembershipsOf (db : DB) (cid : Nat) : DB :=
  { db with memberships := db.memberships.filter (fun m => !(m.contact_id == cid)) }

/-- State after the second DELETE of delete_contact (the contact row
removed). -/
def deleteContactRow (db : DB) (cid : Nat) : DB :=
  { db with contacts := db.contacts.filter (fun c => !(c.contact_id == cid)) }

/-- The sequence of uncommitted transaction states the cursor of
delete_contact passes through: initial, after the membership DELETE, after
the contact DELETE.  Nothing is persisted until db.commit(). -/
def delete_contact_trace (db : DB) (cid : Nat) : List DB :=
  [db, deleteMembershipsOf db cid, deleteContactRow (deleteMembershipsOf db cid) cid]

/-- DELETE /contacts/id.  abortMid = true models an exception at any point
after the existence check and before db.commit(); the handler then calls
db.rollback(), so the persisted state is the input state. -/
def delete_contact (db : DB) (cid : Nat) (abortMid : Bool) :
    Outcome Unit × DB :=
  if db.contacts.any (fun c => c.contact_id == cid) then
    if abortMid then
      (.serverError "Failed to delete contact", db)
    else
      (.noContent, deleteContactRow (deleteMembershipsOf db cid) cid)
  else
    (.notFound "Contact not found", db)

/-- Membership creation payload for POST /contacts/id/groups. -/
structure MembershipCreate where
  group_id : Nat
  membership_status : String := "active"
  notes : Option String := none
  deriving DecidableEq

/-- POST /contacts/id/groups: contact existence, group existence,
duplicate-membership check, then the INSERT. -/
def add_contact_to_group (db : DB) (now cid : Nat) (data : MembershipCreate) :
    Outcome Unit × DB :=
  if !(db.contacts.any (fun c => c.contact_id == cid)) then
    (.notFound "Contact not found", db)
  else if !(db.groups.any (fun g => g.group_id == data.group_id)) then
    (.notFound "Group not found", db)
  else if db.memberships.any
      (fun m => m.contact_id == cid && m.group_id == data.group_id) then
    (.conflict "Contact is already a member of this group", db)
  else
    let row : Membership :=
      { contact_id := cid
        group_id := data.group_id
        membership_status := data.membership_status
        joined_at := now
        notes := data.notes }
    (.created (), { db with memberships := db.memberships ++ [row] })

/-! ### Contact listing (GET /contacts) -/

/-- One conjunct per provided filter of the WHERE clause built by
list_contacts: free-text ILIKE across full_name, email and organization,
active-membership existence for group_id, and exact contact_status match.
An empty search string is falsy in Python and adds no condition. -/
def contactMatches (ms : List Membership) (search : Option String)
    (group_id : Option Nat) (status : Option String) (c : Contact) : Bool :=
  (match search with
   | none => true
   | some q =>
     q == "" ||
     (ilike (some c.full_name) q || ilike (some c.email) q || ilike c.organization q))
  && (match group_id with
      | none => true
      | some gid => ms.any (fun m =>
          m.contact_id == c.contact_id && m.group_id == gid &&
          m.membership_status == "active"))
  && (match status with
      | none => true
      | some s => c.contact_status == s)

/-- The filtered row set both the COUNT query and the page query of
list_contacts range over. -/
def contactsFiltered (db : DB) (search : Option String) (group_id : Option Nat)
    (status : Option String) : List Contact :=
  db.contacts.filter (contactMatches db.memberships search group_id status)

/-- The ordering ORDER BY c.full_name constrains: name text order, with no
secondary key. -/
def contactNameLe (a b : Contact) : Prop :=
  strLeb a.full_name b.full_name = true

instance contactNameLe.decRel : DecidableRel contactNameLe :=
  fun a b => instDecidableEqBool (strLeb a.full_name b.full_name) true

/-- Response envelope of GET /contacts. -/
structure ContactListResponse where
  contacts : List Contact
  total : Nat
  page : Nat
  per_page : Nat
  has_next : Bool
  has_prev : Bool
  deriving DecidableEq

/-- GET /contacts: count, pagination arithmetic, ordered page fetch with
LIMIT per_page OFFSET (page - 1) * per_page. -/
def list_contacts (db : DB) (page per_page : Nat) (search : Option String)
    (group_id : Option Nat) (status : Option String) : ContactListResponse :=
  let filtered := contactsFiltered db search group_id status
  let total := filtered.length
  { contacts :=
      ((List.insertionSort contactNameLe filtered).drop ((page - 1) * per_page)).take per_page
    total := total
    page := page
    per_page := per_page
    has_next := decide (total > page * per_page)
    has_prev := decide (page > 1) }

/-- A row order consistent with the query list_contacts issues: some
permutation of the filtered rows that is sorted by full_name.  ORDER BY
with no secondary key constrains the store no further than this. -/
def validContactListing (db : DB) (search : Option String)
    (group_id : Option Nat) (status : Option String) (out : List Contact) : Prop :=
  out.Perm (contactsFiltered db search group_id status) ∧
  List.Sorted contactNameLe out

/-! ### Groups endpoints (app/api/v1/groups.py) -/

/-- Creation payload for POST /groups. -/
structure GroupCreate where
  group_name : String
  description : Option String := none
  deriving DecidableEq

/-- COUNT(DISTINCT cgm.contact_id) over the left-joined membership rows of
one group. -/
def memberCountDistinct (ms : List Membership) (gid : Nat) : Nat :=
  ((ms.filter (fun m => m.group_id == gid)).map (fun m => m.contact_id)).dedup.length

/-- The ordering ORDER BY g.group_name constrains. -/
def groupNameLe (a b : Group) : Prop :=
  strLeb a.group_name b.group_name = true

instance groupNameLe.decRel : DecidableRel groupNameLe :=
  fun a b => instDecidableEqBool (strLeb a.group_name b.group_name) true

/-- One row of the GET /groups response: the group plus its aggregate
member_count. -/
structure GroupWithCount where
  group : Group
  member_count : Nat
  deriving DecidableEq

/-- GET /groups: LEFT JOIN to memberships, GROUP BY the group columns,
COUNT DISTINCT contact_id, ORDER BY group_name.  Every group produces
exactly one row, with count 0 when it has no memberships. -/
def list_groups (db : DB) : List GroupWithCount :=
  (List.insertionSort groupNameLe db.groups).map
    (fun g => { group := g
                member_count := memberCountDistinct db.memberships g.group_id })

/-- POST /groups: no pre-check; the INSERT hits the store unique constraint
on group_name when the name exists, and the except branch re-maps that
error by substring match. -/
def create_group (db : DB) (newId now : Nat) (data : GroupCreate) :
    Outcome (Group × Nat) × DB :=
  if db.groups.any (fun g => g.group_name == data.group_name) then
    (group_exception_response pgUniqueViolationMessage
      "Failed to create group" data.group_name, db)
  else
    let g : Group :=
      { group_id := newId
        group_name := data.group_name
        description := data.description
        created_at := now
        updated_at := now
        version := 0 }
    (.created (g, 0), { db with groups := db.groups ++ [g] })

/-- PUT /groups/id: empty-payload check first (400), then the dynamic
UPDATE whose SET list holds only the provided fields — the group handler
appends no updated_at and no version assignment — followed by the COUNT
member-count query.  A rename onto another existing group name trips the
store unique constraint, re-mapped by the except branch. -/
def update_group (db : DB) (gid : Nat) (p : GroupUpdate) :
    Outcome (Group × Nat) × DB :=
  if p.group_name.isNone && p.description.isNone then
    (.badRequest "No fields to update", db)
  else
    match db.groups.find? (fun g => g.group_id == gid) with
    | none => (.notFound "Group not found", db)
    | some g =>
      if (match p.group_name with
          | some n => db.groups.any (fun h => h.group_name == n && h.group_id != gid)
          | none => false) then
        (group_exception_response pgUniqueViolationMessage
          "Failed to update group" (p.group_name.getD ""), db)
      else
        let g' := p.apply g
        let written := db.groups.map
          (fun h => if h.group_id == gid then p.apply h else h)
        let db' := { db with groups := written }
        ((.ok (g', (db.memberships.filter (fun m => m.group_id == gid)).length)), db')

/-- Modelled from the spec: the schema (scripts/create_schema.sql, absent
from src/) declares the foreign key from memberships to groups, per the
invariant that a Membership cannot reference a nonexistent Group; deleting
a group that membership rows still reference therefore raises a store
error. -/
def groupFkViolation (db : DB) (gid : Nat) : Bool :=
  db.memberships.any (fun m => m.group_id == gid)

/-- DELETE /groups/id: a single DELETE on the groups table only.  No row
matched means 404; a foreign-key violation reaches the generic except
branch (get_db_cursor rolls back, the handler returns 500); otherwise the
group row alone is removed. -/
def delete_group (db : DB) (gid : Nat) : Outcome Unit × DB :=
  if db.groups.any (fun g => g.group_id == gid) then
    if groupFkViolation db gid then
      (.serverError "Failed to delete group", db)
    else
      (.noContent, { db with groups := db.groups.filter (fun g => !(g.group_id == gid)) })
  else
    (.notFound "Group not found", db)

/-! ### Social-profile endpoints (app/api/v1/social_profiles.py) -/

/-- Creation payload for POST /social-profiles. -/
structure SocialProfileCreate where
  contact_id : Nat
  platform : String
  username_or_handle : Option String := none
  profile_url : String
  notes : Option String := none
  deriving DecidableEq

/-- create_social_profile with the contact existence check and the INSERT
possibly observing different store states (concurrent writer).  The INSERT
hits the per-contact unique constraint on profile_url when a duplicate
exists, and the except branch re-maps that error by substring match. -/
def create_social_profile_race (dbCheck dbIns : DB) (newId now : Nat)
    (data : SocialProfileCreate) : Outcome SocialProfile × DB :=
  if !(dbCheck.contacts.any (fun c => c.contact_id == data.contact_id)) then
    (.notFound "Contact not found", dbIns)
  else if dbIns.profiles.any (fun p =>
      p.contact_id == data.contact_id && p.profile_url == data.profile_url) then
    (profile_exception_response pgUniqueViolationMessage
      "Failed to create social profile", dbIns)
  else
    let p : SocialProfile :=
      { profile_id := newId
        contact_id := data.contact_id
        platform := data.platform
        username_or_handle := data.username_or_handle
        profile_url := data.profile_url
        notes := data.notes
        added_at := now
        updated_at := now
        version := 0 }
    (.created p, { dbIns with profiles := dbIns.profiles ++ [p] })

/-- POST /social-profiles in the sequential case. -/
def create_social_profile (db : DB) (newId now : Nat)
    (data : SocialProfileCreate) : Outcome SocialProfile × DB :=
  create_social_profile_race db db newId now data

/-- PUT /social-profiles/id: existence check, empty-payload check (400),
then the dynamic UPDATE with updated_at and version assignments appended;
a URL change onto an existing (contact, url) pair trips the store unique
constraint, re-mapped by the except branch. -/
def update_social_profile (db : DB) (now pid : Nat) (p : SocialProfileUpdate) :
    Outcome SocialProfile × DB :=
  match db.profiles.find? (fun q => q.profile_id == pid) with
  | none => (.notFound "Social profile not found", db)
  | some q =>
    if p.isEmpty then
      (.badRequest "No fields provided for update", db)
    else if (match p.profile_url with
        | some u => db.profiles.any (fun r =>
            r.contact_id == q.contact_id && r.profile_url == u && r.profile_id != pid)
        | none => false) then
      (profile_exception_response pgUniqueViolationMessage
        "Failed to update social profile", db)
    else
      let written := db.profiles.map
        (fun r => if r.profile_id == pid then p.apply now r else r)
      (.ok (p.apply now q), { db with profiles := written })

/-! ### Concrete fixtures used by the theorems below -/

/-- A group row at version 5 before an update. -/
def gOldC1 : Group :=
  { group_id := 1, group_name := "Old Name", created_at := 3, updated_at := 3, version := 5 }

/-- The same row after update_group renames it: name changed, version and
updated_at untouched. -/
def gNewC1 : Group :=
  { group_id := 1, group_name := "New Name", created_at := 3, updated_at := 3, version := 5 }

/-- State holding only gOldC1. -/
def dbC1 : DB := { contacts := [], groups := [gOldC1], memberships := [], profiles := [] }

/-- A contact fixture. -/
def cW : Contact := { contact_id := 1, full_name := "Ann", email := "ann@x.org" }

/-- A group fixture. -/
def gW : Group := { group_id := 1, group_name := "Organizers" }

/-- A social-profile fixture. -/
def spW : SocialProfile :=
  { profile_id := 1, contact_id := 1, platform := "Twitter", profile_url := "https://t.example/ann" }

/-- State holding one contact, one group, one profile and no memberships. -/
def dbW : DB := { contacts := [cW], groups := [gW], memberships := [], profiles := [spW] }

/-- A creation payload reusing the email of cW. -/
def dataDup : ContactCreate := { full_name := "Ann Two", email := "ann@x.org" }

/-- The membership row joining cW to gW. -/
def mW : Membership := { contact_id := 1, group_id := 1 }

/-- State where cW is already a member of gW. -/
def dbM : DB := { contacts := [cW], groups := [gW], memberships := [mW], profiles := [] }

/-! ### C1 -/

/-- C1 (refuted, code bug): the claim says the persisted version after every
successful update with at least one concrete field is the old version plus
one, for every entity type.  The group handler contradicts it: update_group
renames gOldC1 successfully, yet the persisted row gNewC1 keeps version 5
and updated_at 3, because its SET list carries no bookkeeping assignments. -/
theorem C1_group_update_leaves_version_unchanged :
    update_group dbC1 1 { group_name := some "New Name" } =
      (.ok (gNewC1, 0),
        { contacts := [], groups := [gNewC1], memberships := [], profiles := [] }) ∧
    gNewC1.group_name ≠ gOldC1.group_name ∧
    gNewC1.version = gOldC1.version ∧
    gNewC1.version ≠ gOldC1.version + 1 ∧
    gNewC1.updated_at = gOldC1.updated_at := by
  decide

/-! ### C2 -/

/-- C2: an update call whose patch has zero concrete fields executes no
write and leaves version and updated_at untouched: update_contact returns
the unmodified current row with the state unchanged, while update_group and
update_social_profile surface a no-fields-to-update error (400) with the
state unchanged. -/
theorem C2_empty_patch_is_no_write :
    (∀ (db : DB) (now cid : Nat) (p : ContactUpdate) (c : Contact),
        p.hasFields = false →
        db.contacts.find? (fun x => x.contact_id == cid) = some c →
        update_contact db now cid p = (.ok c, db)) ∧
    (∀ (db : DB) (gid : Nat) (p : GroupUpdate),
        p.group_name = none → p.description = none →
        update_group db gid p = (.badRequest "No fields to update", db)) ∧
    (∀ (db : DB) (now pid : Nat) (p : SocialProfileUpdate) (q : SocialProfile),
        p.isEmpty = true →
        db.profiles.find? (fun r => r.profile_id == pid) = some q →
        update_social_profile db now pid p =
          (.badRequest "No fields provided for update", db)) := by
  refine ⟨?_, ?_, ?_⟩
  · intro db now cid p c hf hfind
    have hemail : p.email = none := by
      cases he : p.email with
      | none => rfl
      | some e =>
        unfold ContactUpdate.hasFields at hf
        rw [he] at hf
        simp at hf
    unfold update_contact
    rw [hfind, hemail, hf]
    simp [hfind]
  · intro db gid p h1 h2
    unfold update_group
    rw [h1, h2]
    simp
  · intro db now pid p q he hfind
    unfold update_social_profile
    rw [hfind, he]
    simp

/-- Witness for C2 at a concrete state: the three empty patches leave dbW
untouched and produce the per-entity outcomes. -/
theorem C2_empty_patch_is_no_write_witness :
    update_contact dbW 9 1 {} = (.ok cW, dbW) ∧
    update_group dbW 1 {} = (.badRequest "No fields to update", dbW) ∧
    update_social_profile dbW 9 1 {} =
      (.badRequest "No fields provided for update", dbW) :=
  ⟨C2_empty_patch_is_no_write.1 dbW 9 1 {} cW (by decide) (by decide),
   C2_empty_patch_is_no_write.2.1 dbW 1 {} rfl rfl,
   C2_empty_patch_is_no_write.2.2 dbW 9 1 {} spW (by decide) (by decide)⟩

/-! ### C6 -/

/-- C6: creating a contact whose email an existing contact already has
returns Conflict and persists nothing: the state after the call is the
state before, so no second row exists and the existing row is unchanged. -/
theorem C6_duplicate_email_create_conflict (db : DB) (newId now : Nat)
    (data : ContactCreate) (h : ∃ c ∈ db.contacts, c.email = data.email) :
    create_contact db newId now data =
      (.conflict ("Contact with email " ++ data.email ++ " already exists"), db) := by
  obtain ⟨c, hc, he⟩ := h
  have hany : db.contacts.any (fun c => c.email == data.email) = true :=
    List.any_eq_true.mpr ⟨c, hc, by simp [he]⟩
  simp [create_contact, create_contact_race, hany]

/-- Witness for C6: a second creation with the email of cW conflicts and
leaves dbW as it was. -/
theorem C6_duplicate_email_create_conflict_witness :
    create_contact dbW 2 9 dataDup =
      (.conflict ("Contact with email " ++ dataDup.email ++ " already exists"), dbW) :=
  C6_duplicate_email_create_conflict dbW 2 9 dataDup ⟨cW, by decide, rfl⟩

/-! ### C7 -/

/-- Number of membership rows for one (contact, group) pair. -/
def pairCount (ms : List Membership) (c g : Nat) : Nat :=
  (ms.filter (fun m => m.contact_id == c && m.group_id == g)).length

/-- C7: adding a contact to a group it is already in returns Conflict with
the state (hence the first membership row) unchanged, and every call
preserves the at-most-one-row-per-pair invariant. -/
theorem C7_duplicate_membership_conflict :
    (∀ (db : DB) (now cid : Nat) (data : MembershipCreate),
        (∃ m ∈ db.memberships, m.contact_id = cid ∧ m.group_id = data.group_id) →
        db.contacts.any (fun c => c.contact_id == cid) = true →
        db.groups.any (fun g => g.group_id == data.group_id) = true →
        add_contact_to_group db now cid data =
          (.conflict "Contact is already a member of this group", db)) ∧
    (∀ (db : DB) (now cid : Nat) (data : MembershipCreate) (c g : Nat),
        pairCount db.memberships c g ≤ 1 →
        pairCount ((add_contact_to_group db now cid data).2.memberships) c g ≤ 1) := by
  constructor
  · intro db now cid data hm hc hg
    obtain ⟨m, hmem, h1, h2⟩ := hm
    have hany : db.memberships.any
        (fun m => m.contact_id == cid && m.group_id == data.group_id) = true :=
      List.any_eq_true.mpr ⟨m, hmem, by simp [h1, h2]⟩
    simp [add_contact_to_group, hc, hg, hany]
  · intro db now cid data c g hle
    by_cases hc : db.contacts.any (fun x => x.contact_id == cid) = true
    · by_cases hg : db.groups.any (fun x => x.group_id == data.group_id) = true
      · by_cases hm : db.memberships.any
            (fun m => m.contact_id == cid && m.group_id == data.group_id) = true
        · have hred : (add_contact_to_group db now cid data).2 = db := by
            simp [add_contact_to_group, hc, hg, hm]
          rw [hred]; exact hle
        · rw [Bool.not_eq_true] at hm
          have hred : (add_contact_to_group db now cid data).2.memberships =
              db.memberships ++
                [{ contact_id := cid, group_id := data.group_id,
                   membership_status := data.membership_status, joined_at := now,
                   notes := data.notes }] := by
            simp [add_contact_to_group, hc, hg, hm]
          unfold pairCount at hle ⊢
          rw [hred, List.filter_append, List.length_append]
          by_cases hpair : c = cid ∧ g = data.group_id
          · obtain ⟨hcc, hgg⟩ := hpair
            rw [hcc, hgg]
            have hall := List.any_eq_false.mp hm
            have hnil : db.memberships.filter
                (fun m => m.contact_id == cid && m.group_id == data.group_id) = [] :=
              List.filter_eq_nil_iff.mpr (fun m hmm => hall m hmm)
            rw [hnil]
            simp
          · have hrow : ((cid == c) && ((data.group_id : Nat) == g)) = false := by
              by_cases h1 : cid = c
              · by_cases h2 : data.group_id = g
                · exact absurd ⟨h1.symm, h2.symm⟩ hpair
                · simp [h2]
              · simp [h1]
            simp only [List.filter_cons, List.filter_nil, hrow]
            simpa using hle
      · rw [Bool.not_eq_true] at hg
        have hred : (add_contact_to_group db now cid data).2 = db := by
          simp [add_contact_to_group, hc, hg]
        rw [hred]; exact hle
    · rw [Bool.not_eq_true] at hc
      have hred : (add_contact_to_group db now cid data).2 = db := by
        simp [add_contact_to_group, hc]
      rw [hred]; exact hle

/-! ### C4 -/

/-- A second contact, member of gW only. -/
def c2W : Contact := { contact_id := 2, full_name := "Bea", email := "bea@x.org" }

/-- A second group. -/
def g2W : Group := { group_id := 2, group_name := "Writers" }

/-- State where contact 1 has two active memberships (groups 1 and 2) and
contact 2 has one (group 1). -/
def dbD : DB :=
  { contacts := [cW, c2W]
    groups := [gW, g2W]
    memberships := [{ contact_id := 1, group_id := 1 }, { contact_id := 1, group_id := 2 },
                    { contact_id := 2, group_id := 1 }]
    profiles := [] }

/-- C4: deleting a contact removes its membership rows before its own row
(between the two DELETEs the uncommitted state has the memberships gone and
the contacts table untouched), and the persisted result is all-or-nothing:
after the call, or after an abort anywhere before commit, the state is
either exactly the input state or the state with the contact row and all
its membership rows removed and everything else untouched.  At dbD the
completed call removes both membership rows of contact 1 together with its
row, and an aborted call leaves all rows intact. -/
theorem C4_delete_contact_atomic :
    (∀ (db : DB) (cid : Nat) (abortMid : Bool),
        (delete_contact db cid abortMid).2 = db ∨
        ((delete_contact db cid abortMid).2.contacts =
            db.contacts.filter (fun c => !(c.contact_id == cid)) ∧
         (delete_contact db cid abortMid).2.memberships =
            db.memberships.filter (fun m => !(m.contact_id == cid)) ∧
         (delete_contact db cid abortMid).2.groups = db.groups ∧
         (delete_contact db cid abortMid).2.profiles = db.profiles)) ∧
    (∀ (db : DB) (cid : Nat),
        (delete_contact_trace db cid)[1]? = some (deleteMembershipsOf db cid) ∧
        (deleteMembershipsOf db cid).contacts = db.contacts ∧
        (deleteMembershipsOf db cid).memberships =
          db.memberships.filter (fun m => !(m.contact_id == cid))) ∧
    (delete_contact dbD 1 false =
      (.noContent,
        { contacts := [c2W], groups := [gW, g2W],
          memberships := [{ contact_id := 2, group_id := 1 }], profiles := [] }) ∧
     delete_contact dbD 1 true = (.serverError "Failed to delete contact", dbD)) := by
  refine ⟨?_, ?_, by decide⟩
  · intro db cid abortMid
    by_cases h : db.contacts.any (fun c => c.contact_id == cid) = true
    · cases abortMid
      · right
        simp [delete_contact, h, deleteContactRow, deleteMembershipsOf]
      · left
        simp [delete_contact, h]
    · left
      rw [Bool.not_eq_true] at h
      simp [delete_contact, h]
  · intro db cid
    exact ⟨rfl, rfl, rfl⟩

/-! ### C5 -/

/-- The i-th of 25 fixture contacts, with single-character distinct names. -/
def mkC (i : Nat) : Contact :=
  { contact_id := i
    full_name := String.mk [Char.ofNat (65 + i)]
    email := String.mk [Char.ofNat (97 + i)] }

/-- State holding 25 contacts and nothing else. -/
def db25 : DB :=
  { contacts := (List.range 25).map mkC, groups := [], memberships := [], profiles := [] }

/-- C5: for every contact-list request, has_next holds iff
total > page * per_page and has_prev iff page > 1, the page is the ordered
filtered rows at offset (page - 1) * per_page limited to per_page (hence
of length min per_page (total - offset)), and in particular page 2 with
per_page 20 over 25 rows yields exactly 5 items with has_next false and
has_prev true. -/
theorem C5_pagination (db : DB) (page per_page : Nat) (search : Option String)
    (group_id : Option Nat) (status : Option String) :
    ((list_contacts db page per_page search group_id status).has_next = true ↔
      (list_contacts db page per_page search group_id status).total > page * per_page) ∧
    ((list_contacts db page per_page search group_id status).has_prev = true ↔ page > 1) ∧
    (list_contacts db page per_page search group_id status).contacts =
      ((List.insertionSort contactNameLe
          (contactsFiltered db search group_id status)).drop
        ((page - 1) * per_page)).take per_page ∧
    (list_contacts db page per_page search group_id status).contacts.length =
      min per_page
        ((list_contacts db page per_page search group_id status).total -
          (page - 1) * per_page) ∧
    ((list_contacts db25 2 20 none none none).contacts.length = 5 ∧
     (list_contacts db25 2 20 none none none).has_next = false ∧
     (list_contacts db25 2 20 none none none).has_prev = true) := by
  refine ⟨?_, ?_, rfl, ?_, by decide⟩
  · simp [list_contacts]
  · simp [list_contacts]
  · simp [list_contacts, List.length_take, List.length_drop,
      List.length_insertionSort]

/-! ### C8 -/

/-- C8: every group of the state appears in the GET /groups listing paired
with the distinct count of its member contacts, and a group no membership
row references gets count 0 — zero-membership groups are never omitted. -/
theorem C8_list_groups_zero_included (db : DB) (g : Group) (hg : g ∈ db.groups) :
    ({ group := g, member_count := memberCountDistinct db.memberships g.group_id } :
        GroupWithCount) ∈ list_groups db ∧
    ((∀ m ∈ db.memberships, m.group_id ≠ g.group_id) →
        memberCountDistinct db.memberships g.group_id = 0) := by
  constructor
  · unfold list_groups
    refine List.mem_map.mpr ⟨g, ?_, rfl⟩
    exact ((List.perm_insertionSort groupNameLe db.groups).mem_iff).mpr hg
  · intro hnone
    unfold memberCountDistinct
    have hnil : db.memberships.filter (fun m => m.group_id == g.group_id) = [] := by
      rw [List.filter_eq_nil_iff]
      intro m hm hbeq
      exact hnone m hm (by simpa using hbeq)
    rw [hnil]
    rfl

/-- Witness for C8: gW has no memberships in dbW yet appears in the listing
with member_count 0. -/
theorem C8_list_groups_zero_included_witness :
    ({ group := gW, member_count := 0 } : GroupWithCount) ∈ list_groups dbW := by
  have h := (C8_list_groups_zero_included dbW gW (by decide)).1
  exact h

/-! ### C10 -/

/-- C10: delete_group never touches membership rows; when the group exists
and membership rows still reference it, the foreign-key violation surfaces
as a generic 500 with the whole state unchanged; when the group exists and
nothing references it, only the group row is removed. -/
theorem C10_delete_group_no_cascade :
    (∀ (db : DB) (gid : Nat), (delete_group db gid).2.memberships = db.memberships) ∧
    (∀ (db : DB) (gid : Nat),
        (∃ g ∈ db.groups, g.group_id = gid) →
        (∃ m ∈ db.memberships, m.group_id = gid) →
        delete_group db gid = (.serverError "Failed to delete group", db)) ∧
    (∀ (db : DB) (gid : Nat),
        (∃ g ∈ db.groups, g.group_id = gid) →
        (∀ m ∈ db.memberships, m.group_id ≠ gid) →
        delete_group db gid =
          (.noContent,
            { db with groups := db.groups.filter (fun g => !(g.group_id == gid)) })) := by
  refine ⟨?_, ?_, ?_⟩
  · intro db gid
    unfold delete_group
    by_cases h : db.groups.any (fun g => g.group_id == gid) = true
    · by_cases hfk : groupFkViolation db gid = true
      · simp [h, hfk]
      · rw [Bool.not_eq_true] at hfk
        simp [h, hfk]
    · rw [Bool.not_eq_true] at h
      simp [h]
  · intro db gid hgex hmex
    obtain ⟨g, hgmem, hgid⟩ := hgex
    obtain ⟨m, hmmem, hmid⟩ := hmex
    have hany : db.groups.any (fun g => g.group_id == gid) = true :=
      List.any_eq_true.mpr ⟨g, hgmem, by simp [hgid]⟩
    have hfk : groupFkViolation db gid = true :=
      List.any_eq_true.mpr ⟨m, hmmem, by simp [hmid]⟩
    simp [delete_group, hany, hfk]
  · intro db gid hgex hnone
    obtain ⟨g, hgmem, hgid⟩ := hgex
    have hany : db.groups.any (fun g => g.group_id == gid) = true :=
      List.any_eq_true.mpr ⟨g, hgmem, by simp [hgid]⟩
    have hfk : groupFkViolation db gid = false := by
      unfold groupFkViolation
      rw [List.any_eq_false]
      intro m hm hbeq
      exact hnone m hm (by simpa using hbeq)
    simp [delete_group, hany, hfk]

/-- Witness for C10: dbM still joins contact 1 to group 1, so deleting
group 1 fails with 500 and its membership row survives; in dbW the group
is unreferenced and only the group row goes. -/
theorem C10_delete_group_no_cascade_witness :
    (delete_group dbM 1).2.memberships = dbM.memberships ∧
    delete_group dbM 1 = (.serverError "Failed to delete group", dbM) ∧
    delete_group dbW 1 =
      (.noContent, { dbW with groups := dbW.groups.filter (fun g => !(g.group_id == 1)) }) :=
  ⟨C10_delete_group_no_cascade.1 dbM 1,
   C10_delete_group_no_cascade.2.1 dbM 1 ⟨gW, by decide, rfl⟩ ⟨mW, by decide, rfl⟩,
   C10_delete_group_no_cascade.2.2 dbW 1 ⟨gW, by decide, rfl⟩ (by decide)⟩

/-! ### C9 -/

/-- Codepoint comparison is antisymmetric. -/
theorem charListLeb_antisymm : ∀ (as bs : List Char),
    charListLeb as bs = true → charListLeb bs as = true → as = bs := by
  intro as
  induction as with
  | nil =>
    intro bs h1 h2
    cases bs with
    | nil => rfl
    | cons b bs => simp [charListLeb] at h2
  | cons a as ih =>
    intro bs h1 h2
    cases bs with
    | nil => simp [charListLeb] at h1
    | cons b bs =>
      by_cases hab : a = b
      · subst hab
        simp only [charListLeb, if_pos rfl] at h1 h2
        rw [ih bs h1 h2]
      · have hba : ¬ b = a := fun h => hab h.symm
        unfold charListLeb at h1 h2
        rw [if_neg hab] at h1
        rw [if_neg hba] at h2
        simp only [Nat.blt_eq] at h1 h2
        omega

/-- Text ordering on strings is antisymmetric. -/
theorem strLeb_antisymm {a b : String} (h1 : strLeb a b = true)
    (h2 : strLeb b a = true) : a = b := by
  unfold strLeb at h1 h2
  have h := charListLeb_antisymm _ _ h1 h2
  cases a
  cases b
  exact congrArg String.mk h

/-- Two sorted permutations of each other agree when the display names
carry no duplicates: the head of each list is its unique minimal-name row,
and the names pin every position down. -/
theorem sorted_perm_eq_of_nodup_names :
    ∀ (l1 l2 : List Contact), l1.Perm l2 →
      List.Sorted contactNameLe l1 → List.Sorted contactNameLe l2 →
      (l1.map Contact.full_name).Nodup → l1 = l2 := by
  intro l1
  induction l1 with
  | nil =>
    intro l2 hp _ _ _
    exact (hp.symm.eq_nil).symm
  | cons a t ih =>
    intro l2 hp hs1 hs2 hnd
    cases l2 with
    | nil => exact absurd hp.eq_nil (List.cons_ne_nil a t)
    | cons b t2 =>
      have hndc : (∀ x ∈ t, ¬ x.full_name = a.full_name) ∧
          (t.map Contact.full_name).Nodup := by simpa using hnd
      have hab : a = b := by
        by_contra hne
        have hain : a ∈ b :: t2 := hp.mem_iff.mp (List.mem_cons_self a t)
        have hbin : b ∈ a :: t := hp.symm.mem_iff.mp (List.mem_cons_self b t2)
        have hat2 : a ∈ t2 := by
          rcases List.mem_cons.mp hain with h | h
          · exact absurd h hne
          · exact h
        have hbt : b ∈ t := by
          rcases List.mem_cons.mp hbin with h | h
          · exact absurd h.symm hne
          · exact h
        have hle1 : contactNameLe a b := (List.sorted_cons.mp hs1).1 b hbt
        have hle2 : contactNameLe b a := (List.sorted_cons.mp hs2).1 a hat2
        have hname : a.full_name = b.full_name := strLeb_antisymm hle1 hle2
        exact hndc.1 b hbt hname.symm
      subst hab
      have hpt : t.Perm t2 := hp.cons_inv
      rw [ih t2 hpt (List.sorted_cons.mp hs1).2 (List.sorted_cons.mp hs2).2 hndc.2]

/-- Two contacts sharing one display name. -/
def tieA : Contact := { contact_id := 1, full_name := "Ann", email := "a1@x.org" }

/-- The tied partner of tieA, distinguishable only by identifier/email. -/
def tieB : Contact := { contact_id := 2, full_name := "Ann", email := "a2@x.org" }

/-- State with the two tied contacts. -/
def dbTie : DB := { contacts := [tieA, tieB], groups := [], memberships := [], profiles := [] }

/-- C9 counterexample: the contact list query orders by full_name alone, so
over dbTie both row orders satisfy everything the issued query requires —
the query does not determine one stable order for tied names, contradicting
the claim that two runs must agree even when names tie. -/
theorem C9_tied_names_order_not_determined :
    validContactListing dbTie none none none [tieA, tieB] ∧
    validContactListing dbTie none none none [tieB, tieA] ∧
    [tieA, tieB] ≠ [tieB, tieA] :=
  ⟨⟨by decide, by decide⟩, ⟨by decide, by decide⟩, by decide⟩

/-- C9 amended: every result consistent with the issued query is ordered by
the display name ascending, and the order is fully determined — hence
stable across repeated identical queries — whenever the filtered rows have
pairwise distinct display names; with tied names the query constrains the
tie order no further. -/
theorem C9_order_deterministic_when_names_distinct (db : DB)
    (search : Option String) (group_id : Option Nat) (status : Option String)
    (out1 out2 : List Contact)
    (h1 : validContactListing db search group_id status out1)
    (h2 : validContactListing db search group_id status out2)
    (hnd : ((contactsFiltered db search group_id status).map Contact.full_name).Nodup) :
    List.Sorted contactNameLe out1 ∧ out1 = out2 := by
  refine ⟨h1.2, ?_⟩
  have hp : out1.Perm out2 := h1.1.trans h2.1.symm
  have hnd1 : (out1.map Contact.full_name).Nodup :=
    ((h1.1.map Contact.full_name).nodup_iff).mpr hnd
  exact sorted_perm_eq_of_nodup_names out1 out2 hp h1.2 h2.2 hnd1

/-- Witness for C9 at dbD, whose two contacts have distinct names: the only
valid listing order is Ann before Bea. -/
theorem C9_order_deterministic_witness :
    List.Sorted contactNameLe [cW, c2W] ∧ [cW, c2W] = [cW, c2W] :=
  C9_order_deterministic_when_names_distinct dbD none none none [cW, c2W] [cW, c2W]
    ⟨by decide, by decide⟩ ⟨by decide, by decide⟩ (by decide)

/-! ### C3 -/

/-- The empty state. -/
def dbEmpty : DB := { contacts := [], groups := [], memberships := [], profiles := [] }

/-- A profile-creation payload reusing the URL of spW for the same contact. -/
def dataSpDup : SocialProfileCreate :=
  { contact_id := 1, platform := "Twitter", profile_url := "https://t.example/ann" }

/-- C3 counterexample: for contact creation the two detection paths do not
agree.  The local pre-check path returns the Conflict signal (409), but the
same duplicate email detected by the store constraint — here the pre-check
ran against a state without the duplicate and the insert hit a state with
it, the race the claim is about — falls into the generic except branch and
surfaces as 500, a generic failure. -/
theorem C3_store_conflict_surfaces_generic :
    (create_contact_race dbW dbW 2 9 dataDup).1.statusCode = 409 ∧
    (create_contact_race dbEmpty dbW 2 9 dataDup).1.statusCode = 500 := by
  constructor
  · decide
  · decide

/-- C3 amended: the store-side unique violation is re-mapped to the same
Conflict signal only for groups; for contacts the pre-check alone yields
409 while the store-detected duplicate surfaces as a generic 500, and for
social profiles the store-detected duplicate surfaces as 400, not 409. -/
theorem C3_conflict_remap_per_entity :
    (∀ (db : DB) (newId now : Nat) (data : GroupCreate),
        (∃ g ∈ db.groups, g.group_name = data.group_name) →
        (create_group db newId now data).1 =
          .conflict ("Group with name " ++ data.group_name ++ " already exists") ∧
        (create_group db newId now data).2 = db) ∧
    (∀ (dbCheck dbIns : DB) (newId now : Nat) (data : ContactCreate),
        (∃ c ∈ dbCheck.contacts, c.email = data.email) →
        (create_contact_race dbCheck dbIns newId now data).1.statusCode = 409) ∧
    (∀ (dbCheck dbIns : DB) (newId now : Nat) (data : ContactCreate),
        (∀ c ∈ dbCheck.contacts, c.email ≠ data.email) →
        (∃ c ∈ dbIns.contacts, c.email = data.email) →
        (create_contact_race dbCheck dbIns newId now data).1 =
          .serverError "Failed to create contact") ∧
    (∀ (dbCheck dbIns : DB) (newId now : Nat) (data : SocialProfileCreate),
        (∃ c ∈ dbCheck.contacts, c.contact_id = data.contact_id) →
        (∃ p ∈ dbIns.profiles,
            p.contact_id = data.contact_id ∧ p.profile_url = data.profile_url) →
        (create_social_profile_race dbCheck dbIns newId now data).1 =
          .badRequest "Social profile URL already exists for this contact") := by
  have hu : lowerContains pgUniqueViolationMessage "unique" = true := by decide
  have hd : lowerContains pgUniqueViolationMessage "duplicate key value" = true := by
    decide
  refine ⟨?_, ?_, ?_, ?_⟩
  · intro db newId now data hex
    obtain ⟨g, hg, hname⟩ := hex
    have hany : db.groups.any (fun g => g.group_name == data.group_name) = true :=
      List.any_eq_true.mpr ⟨g, hg, by simp [hname]⟩
    constructor
    · simp [create_group, hany, group_exception_response, hu]
    · simp [create_group, hany]
  · intro dbCheck dbIns newId now data hex
    obtain ⟨c, hc, he⟩ := hex
    have hany : dbCheck.contacts.any (fun c => c.email == data.email) = true :=
      List.any_eq_true.mpr ⟨c, hc, by simp [he]⟩
    simp [create_contact_race, hany, Outcome.statusCode]
  · intro dbCheck dbIns newId now data hnone hex
    obtain ⟨c, hc, he⟩ := hex
    have hnoneb : dbCheck.contacts.any (fun c => c.email == data.email) = false := by
      rw [List.any_eq_false]
      intro x hx hbeq
      exact hnone x hx (by simpa using hbeq)
    have hany : dbIns.contacts.any (fun c => c.email == data.email) = true :=
      List.any_eq_true.mpr ⟨c, hc, by simp [he]⟩
    simp [create_contact_race, hnoneb, hany]
  · intro dbCheck dbIns newId now data hcex hdup
    obtain ⟨c, hc, hcid⟩ := hcex
    obtain ⟨p, hpmem, hpcid, hpurl⟩ := hdup
    have hcany : dbCheck.contacts.any (fun c => c.contact_id == data.contact_id) = true :=
      List.any_eq_true.mpr ⟨c, hc, by simp [hcid]⟩
    have hpany : dbIns.profiles.any (fun p =>
        p.contact_id == data.contact_id && p.profile_url == data.profile_url) = true :=
      List.any_eq_true.mpr ⟨p, hpmem, by simp [hpcid, hpurl]⟩
    simp [create_social_profile_race, hcany, hpany, profile_exception_response, hd]

/-- Witness for C3 at concrete states: group duplicate via the store → 409;
contact duplicate via the pre-check → 409; contact duplicate via the store
→ 500; profile duplicate via the store → 400. -/
theorem C3_conflict_remap_per_entity_witness :
    (create_group dbM 7 9 { group_name := "Organizers" }).1 =
      .conflict ("Group with name " ++ "Organizers" ++ " already exists") ∧
    (create_contact_race dbW dbW 2 9 dataDup).1.statusCode = 409 ∧
    (create_contact_race dbEmpty dbW 2 9 dataDup).1 =
      .serverError "Failed to create contact" ∧
    (create_social_profile_race dbW dbW 2 9 dataSpDup).1 =
      .badRequest "Social profile URL already exists for this contact" :=
  ⟨(C3_conflict_remap_per_entity.1 dbM 7 9 { group_name := "Organizers" }
      ⟨gW, by decide, rfl⟩).1,
   C3_conflict_remap_per_entity.2.1 dbW dbW 2 9 dataDup ⟨cW, by decide, rfl⟩,
   C3_conflict_remap_per_entity.2.2.1 dbEmpty dbW 2 9 dataDup
     (fun c hc => absurd hc (List.not_mem_nil c)) ⟨cW, by decide, rfl⟩,
   C3_conflict_remap_per_entity.2.2.2 dbW dbW 2 9 dataSpDup
     ⟨cW, by decide, rfl⟩ ⟨spW, by decide, rfl, rfl⟩⟩

/-- Witness for C7: the duplicate insertion of mW conflicts and keeps dbM
intact, and the pair (1, 1) still has at most one row afterwards. -/
theorem C7_duplicate_membership_conflict_witness :
    add_contact_to_group dbM 9 1 { group_id := 1 } =
      (.conflict "Contact is already a member of this group", dbM) ∧
    pairCount ((add_contact_to_group dbM 9 1 { group_id := 1 }).2.memberships) 1 1 ≤ 1 :=
  ⟨C7_duplicate_membership_conflict.1 dbM 9 1 { group_id := 1 }
      ⟨mW, by decide, rfl, rfl⟩ (by decide) (by decide),
   C7_duplicate_membership_conflict.2 dbM 9 1 { group_id := 1 } 1 1 (by decide)⟩

end CivicFuse
